import Mathlib

/-!
Verification of the shodan repository's new-bug reporter
(`pkg/operator/reporters/new/new_controller.go`) and closed-bug reporter
(`pkg/operator/reporters/closed/closed_reporter.go`), as a shallow
embedding: the Go methods become Lean functions over explicit environments
that stand for the external bug-tracker client, the chat client and the
persistent key/value store.  Time is counted in hours (the source only
compares `time.Time` values against `now` minus fixed hour multiples).
-/

namespace Shodan

/-! ## Definitions -/

/-- Decimal digit characters of `n`, most significant first; the recursion
that the fuel-based `Nat.toDigitsCore` implements.  The persisted cursor
travels through `strconv.Itoa` / `strconv.Atoi` as a decimal string; the
embedding uses `Nat.repr` for `Itoa` and `String.toNat?` for `Atoi` (the
values the controller writes are never negative), and `decDigits` is the
bridge for proving that round trip. -/
def decDigits (n : Nat) : List Char :=
  if _ : n < 10 then [Nat.digitChar n]
  else decDigits (n / 10) ++ [Nat.digitChar (n % 10)]
termination_by n
decreasing_by exact Nat.div_lt_self (by omega) (by omega)

/-- `bugzilla.Bug`, restricted to the fields the new-bug controller reads. -/
structure Bug where
  ID : Nat
  Status : String
  AssignedTo : String
  deriving DecidableEq, Repr

/-- The `message` struct of new_controller.go (lines 37–46): one posted
notification still being watched.  `createdAt` is in hours. -/
structure message where
  createdAt : Nat
  ID : Nat
  channelID : String
  ts : String
  deriving DecidableEq, Repr

/-- Outcomes of the external calls one `sync` run makes
(`GetPersistentValue`, the tracker search inside `getNewBugs`,
`slackClient.PostMessageChannel`, `SetPersistentValue`), plus the clock. -/
structure SyncEnv where
  /-- the initial `GetPersistentValue` read succeeds (on failure `sync`
  returns at once, before the deferred persist is installed). -/
  getOk : Bool
  /-- result of `getNewBugs client components lastID`, as a function of the
  `lastID` passed to it. -/
  scan : Nat → Except String (List Bug)
  /-- `PostMessageChannel` outcome for the notification of a given bug id:
  `some (channel, timestamp)` on success, `none` on error. -/
  post : Nat → Option (String × String)
  /-- the deferred `SetPersistentValue` write succeeds. -/
  setOk : Bool
  /-- `time.Now()`, in hours. -/
  now : Nat

/-- What one `sync` run did: the persisted store value afterwards (`""`
when still unset), the registry `messagesToWatchAndUpdate`, whether the
deferred `SetPersistentValue` call was reached, and the returned error. -/
structure SyncResult where
  store : String
  registry : List message
  persistAttempted : Bool
  err : Option String
  deriving DecidableEq, Repr

/-- The posting loop of `sync` (lines 157–174): for each scanned bug,
advance `lastID` past its id, post the notification, and on posting
success append a `message` to the registry. -/
def syncLoop (env : SyncEnv) : List Bug → Nat → List message → Nat × List message
  | [], lastID, registry => (lastID, registry)
  | b :: rest, lastID, registry =>
    let lastID := if b.ID > lastID then b.ID else lastID
    let registry :=
      match env.post b.ID with
      | some (ch, ts) => registry ++ [⟨env.now, b.ID, ch, ts⟩]
      | none => registry
    syncLoop env rest lastID registry

/-- `errorutil.NewAggregate`: `nil` for an empty error list. -/
def newAggregate (errs : List String) : Option String :=
  if errs.isEmpty then none else some (String.intercalate ", " errs)

/-- The `sync` method of `NewBugReporter` (lines 124–177) over the current
persisted store value (`""` when unset) and registry:

* read `lastID` from the store (`strconv.Atoi`; empty or unparsable → 0);
  a failed read returns immediately — before the deferred persist is
  installed, so no write is attempted on that path;
* scan for new bugs; a scan failure is recorded and returned (the deferred
  `SetPersistentValue` still runs, and its own failure is swallowed
  because the returned error is already non-nil);
* run the posting loop; the `errs` slice is declared but never appended to
  in the source, so the aggregated loop error is `newAggregate []`;
* the deferred persist writes `strconv.Itoa lastID`; a persist failure
  becomes the returned error only when the run's own error is nil. -/
def sync (env : SyncEnv) (store : String) (registry : List message) : SyncResult :=
  if env.getOk = false then
    { store := store, registry := registry, persistAttempted := false,
      err := some "GetPersistentValue failed" }
  else
    let lastID := if store = "" then 0 else (store.toNat?).getD 0
    match env.scan lastID with
    | .error e =>
      { store := if env.setOk then Nat.repr lastID else store,
        registry := registry, persistAttempted := true, err := some e }
    | .ok newBugs =>
      let r := syncLoop env newBugs lastID registry
      let loopErr := newAggregate []
      if env.setOk then
        { store := Nat.repr r.1, registry := r.2,
          persistAttempted := true, err := loopErr }
      else
        { store := store, registry := r.2, persistAttempted := true,
          err := match loopErr with
            | none => some "SetPersistentValue failed"
            | some e => some e }

/-- The integer value of a persisted cursor string, exactly as `sync`
parses it: 0 for the unset empty string or an unparsable value. -/
def cursorOf (s : String) : Nat := (s.toNat?).getD 0

/-- Maximum bug id in a scan result (0 when empty). -/
def maxID (bugs : List Bug) : Nat := bugs.foldl (fun a b => max a b.ID) 0

/-- A sequence of Sync Cycles threaded through the persisted store and the
registry. -/
def syncSeq : List SyncEnv → String → List message → String × List message
  | [], store, registry => (store, registry)
  | env :: rest, store, registry =>
    let r := sync env store registry
    syncSeq rest r.store r.registry

/-- Environment of one `updateMessages` reconciliation pass. -/
structure ReconEnv where
  /-- `client.GetCachedBug` by bug id. -/
  fetch : Nat → Except String Bug
  /-- `slackGoClient.UpdateMessage` outcome per (channel, ts); the source
  only logs a failure, so the pass never consults it for retention. -/
  editOk : String → String → Bool
  /-- `time.Now()`, in hours. -/
  now : Nat

/-- The retention window: `time.Hour * 24 * 30`, in hours. -/
def thirtyDays : Nat := 24 * 30

/-- The prune condition of `updateMessages` (line 83):
`m.createdAt.Before(time.Now().Add(-time.Hour * 24 * 30))`. -/
def tooOld (now : Nat) (m : message) : Bool := m.createdAt < now - thirtyDays

/-- One pass of the `updateMessages` loop body (lines 68–120) acting on
the registry: prune entries older than 30 days, then for each remaining
entry fetch its bug — a fetch failure or a still-`"NEW"` status keeps the
entry, any other status edits the chat message (outcome only logged) and
drops the entry.  Returns the new registry and the list of `(channel, ts)`
pairs on which an `UpdateMessage` edit was attempted. -/
def updateMessagesPass (env : ReconEnv) (msgs : List message) :
    List message × List (String × String) :=
  let notTooOldMessages := msgs.filter (fun m => ! tooOld env.now m)
  notTooOldMessages.foldl
    (fun acc m =>
      match env.fetch m.ID with
      | .error _ => (acc.1 ++ [m], acc.2)
      | .ok b =>
        if b.Status = "NEW" then (acc.1 ++ [m], acc.2)
        else (acc.1, acc.2 ++ [(m.channelID, m.ts)]))
    ([], [])

/-- Abstract events of one `updateMessages` pass, in execution order. -/
inductive PassEvent where
  | lockAcq
  | prune
  | fetchBug (id : Nat)
  | editMessage (channel ts : String)
  | sleepHour
  | lockRel
  deriving DecidableEq, Repr

/-- The per-entry events of the reconcile loop (lines 92–116): each entry
is fetched; entries that have left `"NEW"` additionally get an
`UpdateMessage` edit. -/
def passLoopEvents (env : ReconEnv) : List message → List PassEvent
  | [] => []
  | m :: rest =>
    (match env.fetch m.ID with
     | .error _ => [.fetchBug m.ID]
     | .ok b =>
       if b.Status = "NEW" then [.fetchBug m.ID]
       else [.fetchBug m.ID, .editMessage m.channelID m.ts])
      ++ passLoopEvents env rest

/-- The events of one `updateMessages` pass in source order:
`messagesLock.Lock()` (line 77), the prune loop (lines 81–88), the
reconcile loop, `time.Sleep(time.Hour)` (line 119), and then the deferred
`messagesLock.Unlock()` (line 78), which only runs when the closure
returns — after the sleep. -/
def passEvents (env : ReconEnv) (msgs : List message) : List PassEvent :=
  [.lockAcq, .prune]
    ++ passLoopEvents env (msgs.filter (fun m => ! tooOld env.now m))
    ++ [.sleepHour, .lockRel]

/-- Whether an event is one of the loop's per-entry external calls. -/
def isCallEvent : PassEvent → Bool
  | .fetchBug _ => true
  | .editMessage _ _ => true
  | _ => false

/-- One step of the lock automaton: track the mutex depth and whether some
`sleepHour` event has happened at positive depth. -/
def lockStep (st : Nat × Bool) : PassEvent → Nat × Bool
  | .lockAcq => (st.1 + 1, st.2)
  | .lockRel => (st.1 - 1, st.2)
  | .sleepHour => (st.1, st.2 || decide (0 < st.1))
  | _ => st

/-- Whether some `sleepHour` event of the list happens while the mutex is
held. -/
def sleepsWhileLocked (evs : List PassEvent) : Bool :=
  (evs.foldl lockStep ((0 : Nat), false)).2

/-- The retention decision the reconcile loop makes for one (not
too old) registry entry (lines 93–103): keep it on fetch failure or while
the bug's status is still `"NEW"`. -/
def keepB (env : ReconEnv) (m : message) : Bool :=
  match env.fetch m.ID with
  | .error _ => true
  | .ok b => b.Status = "NEW"

/-- The `TakeValue` payload embedded in the claim button (lines 179–182). -/
structure TakeValue where
  ID : Nat
  OldAssignee : String
  deriving DecidableEq, Repr

/-- Outcomes of the external calls one `takeClicked` handler run makes, in
the order the handler makes them. -/
structure TakeEnv where
  /-- `GetUserProfile` result: the user's email on success. -/
  profile : Except String String
  /-- `slack.SlackEmailToBugzilla` (pkg/slack, not in the snapshot): the
  chat-email → tracker-account mapping, opaque here. -/
  emailToBugzilla : String → String
  /-- the first `GetCachedBug`. -/
  fetchBug : Except String Bug
  /-- `UpdateBug` outcome. -/
  updateResult : Except String Unit
  /-- the re-fetch `GetCachedBug` after the update. -/
  refetchBug : Except String Bug
  /-- the `Bug` value the cache client hands back together with a re-fetch
  error; the cache package is not in the snapshot, and the source formats
  this value into the fallback message text. -/
  refetchReturnedBug : Bug
  /-- `bugutil.FormatBugMessage` (pkg/operator/bugutil, not in the
  snapshot), opaque here. -/
  format : Bug → String
  /-- `slackGoClient.UpdateMessage` outcome for the original notification. -/
  editResult : Except String Unit

/-- Observable effects of one `takeClicked` handler run. -/
structure TakeResult where
  /-- arguments of the `UpdateBug` calls made: `(id, status, assignee)`. -/
  updates : List (Nat × String × String)
  /-- ephemeral error text posted to the acting user, if any. -/
  ephemeral : Option String
  /-- plain `MessageChannel` fallback text, if any. -/
  channelMessage : Option String
  /-- `UpdateMessage` edit attempted on the original notification:
  `(channel, ts, new text)`. -/
  edit : Option (String × String × String)
  deriving DecidableEq, Repr

/-- The detached body of `takeClicked` (lines 194–260), after the payload
has been decoded into `value` (a malformed payload aborts before this
body; no claim concerns that path).  `userID`, `channelID` and `messageTs`
are the interaction's container fields. -/
def takeClicked (env : TakeEnv) (value : TakeValue)
    (userID channelID messageTs : String) : TakeResult :=
  match env.profile with
  | .error e =>
    { updates := [],
      ephemeral := some ("Failed to get user profile of " ++ userID ++ ": " ++ e),
      channelMessage := none, edit := none }
  | .ok email =>
    let bzEmail := env.emailToBugzilla email
    match env.fetchBug with
    | .error e =>
      { updates := [],
        ephemeral := some ("Failed to get https://bugzilla.redhat.com/show_bug.cgi?id="
          ++ Nat.repr value.ID ++ ": " ++ e),
        channelMessage := none, edit := none }
    | .ok b =>
      if b.Status ≠ "NEW" then
        { updates := [],
          ephemeral := some ("Bug https://bugzilla.redhat.com/show_bug.cgi?id="
            ++ Nat.repr value.ID ++ " has been moved already to " ++ b.Status),
          channelMessage := none, edit := none }
      else if b.AssignedTo ≠ "" ∧ b.AssignedTo ≠ value.OldAssignee then
        { updates := [],
          ephemeral := some ("Bug https://bugzilla.redhat.com/show_bug.cgi?id="
            ++ Nat.repr value.ID ++ " has already been assigned to " ++ value.OldAssignee),
          channelMessage := none, edit := none }
      else
        match env.updateResult with
        | .error e =>
          { updates := [(value.ID, "ASSIGNED", bzEmail)],
            ephemeral := some ("Failed to assign https://bugzilla.redhat.com/show_bug.cgi?id="
              ++ Nat.repr value.ID ++ " to " ++ bzEmail ++ ": " ++ e),
            channelMessage := none, edit := none }
        | .ok _ =>
          match env.refetchBug with
          | .error _ =>
            { updates := [(value.ID, "ASSIGNED", bzEmail)],
              ephemeral := none,
              channelMessage := some (bzEmail ++ " took: "
                ++ env.format env.refetchReturnedBug),
              edit := none }
          | .ok b2 =>
            let text := env.format b2 ++ " – assigned to " ++ bzEmail
            match env.editResult with
            | .error _ =>
              { updates := [(value.ID, "ASSIGNED", bzEmail)],
                ephemeral := none,
                channelMessage := some (bzEmail ++ " took: " ++ env.format b2),
                edit := some (channelID, messageTs, text) }
            | .ok _ =>
              { updates := [(value.ID, "ASSIGNED", bzEmail)],
                ephemeral := none, channelMessage := none,
                edit := some (channelID, messageTs, text) }

/-- `bugzilla.AdvancedQuery`, the fields `getNewBugs` sets. -/
structure AdvancedQuery where
  Field : String
  Op : String
  Value : String
  deriving DecidableEq, Repr

/-- `bugzilla.Query`, the fields `getNewBugs` sets. -/
structure Query where
  Classification : List String
  Product : List String
  Status : List String
  Component : List String
  Advanced : List AdvancedQuery
  IncludeFields : List String
  deriving DecidableEq, Repr

/-- The query `getNewBugs` (lines 280–314) passes to `client.Search`. -/
def getNewBugsQuery (components : List String) (lastID : Nat) : Query :=
  let aq : AdvancedQuery := ⟨"bug_id", "greaterthan", Nat.repr lastID⟩
  let aq := if lastID = 0 then (⟨"creation_ts", "greaterthaneq", "-168h"⟩ : AdvancedQuery)
            else aq
  { Classification := ["Red Hat"],
    Product := ["OpenShift Container Platform"],
    Status := ["NEW"],
    Component := components,
    Advanced := [aq],
    IncludeFields := ["id", "assigned_to", "status", "severity", "priority",
      "component", "summary", "cf_cust_facing", "target_release",
      "last_change_time", "reporter"] }

/-- A tracked item as the tracker's query engine sees it; `creationTime`
in hours since epoch. -/
structure ScanItem where
  id : Nat
  classification : String
  product : String
  status : String
  component : String
  creationTime : Nat
  deriving DecidableEq, Repr

/-- Modelled from the spec: §6 "Tracker query contract" — an advanced
clause is either a minimum-id bound (exclusive) or a creation-time lower
bound; `greaterthan bug_id v` matches items with `id > v`, and
`greaterthaneq creation_ts "-168h"` matches items created within the last
168 hours.  The tracker itself (`client.Search`) is an external
collaborator with no source in the repository. -/
def matchesAdvanced (now : Nat) (it : ScanItem) (aq : AdvancedQuery) : Bool :=
  if aq.Field = "bug_id" ∧ aq.Op = "greaterthan" then
    (aq.Value.toNat?).getD 0 < it.id
  else if aq.Field = "creation_ts" ∧ aq.Op = "greaterthaneq" ∧ aq.Value = "-168h" then
    now - 168 ≤ it.creationTime
  else
    false

/-- Modelled from the spec: §6 — the tracker returns the items matching
the fixed classification/product/status/component scope lists and every
advanced clause. -/
def matchesQuery (now : Nat) (q : Query) (it : ScanItem) : Bool :=
  q.Classification.contains it.classification
    && q.Product.contains it.product
    && q.Status.contains it.status
    && q.Component.contains it.component
    && q.Advanced.all (matchesAdvanced now it)

/-- The fixed scope of the `getNewBugs` query. -/
def inScope (components : List String) (it : ScanItem) : Bool :=
  (it.classification = "Red Hat")
    && (it.product = "OpenShift Container Platform")
    && (it.status = "NEW")
    && components.contains it.component

/-- A closed bug as the closed reporter reads it. -/
structure ClosedBug where
  ID : Nat
  Resolution : String
  deriving DecidableEq, Repr

/-- Outcomes of the external calls one closed-reporter `sync` run makes. -/
structure ClosedEnv where
  /-- `client.BugList(config.Lists.Closed.Name, config.Lists.Closed.SharerID)`. -/
  bugList : Except String (List ClosedBug)
  /-- `slackClient.MessageChannel` outcome. -/
  messageOk : Bool
  /-- `bugutil.BugCountPlural` (pkg/operator/bugutil, not in the
  snapshot), opaque here. -/
  bugCountPlural : Nat → Bool → String

/-- First-appearance order of resolutions, standing in for Go's
`map[string][]bugzilla.Bug` grouping (`resolutionMap`); Go's map iteration
order is unspecified, so the model fixes first-appearance order — the
claims do not depend on the order. -/
def resolutionKeys (bugs : List ClosedBug) : List String :=
  bugs.foldl (fun ks b => if ks.contains b.Resolution then ks else ks ++ [b.Resolution]) []

/-- `Report` of closed_reporter.go (lines 52–83): group the closed bugs by
resolution, render one line per resolution, and return the empty string
(with no error) when the list is empty. -/
def closedReport (env : ClosedEnv) : Except String String :=
  match env.bugList with
  | .error e => .error e
  | .ok closedBugs =>
    let lines := (resolutionKeys closedBugs).map (fun res =>
      let bugs := closedBugs.filter (fun b => b.Resolution = res)
      let ids := bugs.map (fun b =>
        "<https://bugzilla.redhat.com/show_bug.cgi?id=" ++ Nat.repr b.ID
          ++ "|#" ++ Nat.repr b.ID ++ ">")
      let p := if bugs.length = 1 then "bug" else "bugs"
      "> " ++ Nat.repr bugs.length ++ " " ++ p ++ " closed as _" ++ res
        ++ "_ (" ++ String.intercalate "," ids ++ ")")
    if closedBugs.length = 0 then .ok ""
    else .ok ("*" ++ env.bugCountPlural closedBugs.length true
      ++ " Closed in the last 24h*:\n" ++ String.intercalate "\n" lines ++ "\n")

/-- What one closed-reporter `sync` run did. -/
structure ClosedSyncResult where
  posted : Option String
  err : Option String
  deriving DecidableEq, Repr

/-- The `sync` method of `BlockersReporter` (closed_reporter.go lines
34–50): build the report, return its error on failure, post nothing and
return nil when the report is empty, otherwise post it to the channel and
surface a delivery failure. -/
def closedSync (env : ClosedEnv) : ClosedSyncResult :=
  match closedReport env with
  | .error e => { posted := none, err := some e }
  | .ok report =>
    if report.length = 0 then { posted := none, err := none }
    else if env.messageOk then { posted := some report, err := none }
    else { posted := some report, err := some "DeliveryFailed" }

/-! ## Theorems -/

theorem toDigitsCore_append (fuel n : Nat) (ds : List Char) :
    Nat.toDigitsCore 10 fuel n ds = Nat.toDigitsCore 10 fuel n [] ++ ds := by
  induction fuel generalizing n ds with
  | zero => simp [Nat.toDigitsCore]
  | succ fuel ih =>
    simp only [Nat.toDigitsCore]
    by_cases h : n / 10 = 0
    · simp [h]
    · simp only [h, if_false]
      rw [ih (n / 10) [Nat.digitChar (n % 10)], ih (n / 10) (Nat.digitChar (n % 10) :: ds)]
      simp

theorem toDigitsCore_eq_decDigits (fuel n : Nat) (h : n < fuel) :
    Nat.toDigitsCore 10 fuel n [] = decDigits n := by
  induction fuel generalizing n with
  | zero => omega
  | succ fuel ih =>
    simp only [Nat.toDigitsCore]
    by_cases h10 : n / 10 = 0
    · have hlt : n < 10 := by omega
      rw [decDigits, dif_pos hlt, if_pos h10, Nat.mod_eq_of_lt hlt]
    · have hge : ¬ n < 10 := by omega
      rw [if_neg h10, toDigitsCore_append, ih (n / 10) (by omega)]
      conv_rhs => rw [decDigits]
      rw [dif_neg hge]

theorem digitChar_isDigit {m : Nat} (h : m < 10) :
    (Nat.digitChar m).isDigit = true := by
  interval_cases m <;> decide

theorem digitChar_val {m : Nat} (h : m < 10) :
    (Nat.digitChar m).toNat - Char.toNat '0' = m := by
  interval_cases m <;> decide

theorem decDigits_ne_nil (n : Nat) : decDigits n ≠ [] := by
  rw [decDigits]; split <;> simp

theorem mem_decDigits_isDigit (n : Nat) :
    ∀ c ∈ decDigits n, c.isDigit = true := by
  induction n using Nat.strong_induction_on with
  | _ n ih =>
    intro c hc
    by_cases h : n < 10
    · rw [decDigits, dif_pos h] at hc
      simp only [List.mem_singleton] at hc
      exact hc ▸ digitChar_isDigit h
    · rw [decDigits, dif_neg h] at hc
      rcases List.mem_append.1 hc with h1 | h2
      · exact ih (n / 10) (Nat.div_lt_self (by omega) (by omega)) c h1
      · simp only [List.mem_singleton] at h2
        exact h2 ▸ digitChar_isDigit (Nat.mod_lt n (by omega))

theorem decDigits_foldl (n acc : Nat) :
    (decDigits n).foldl (fun a c => a * 10 + (c.toNat - Char.toNat '0')) acc
      = acc * 10 ^ (decDigits n).length + n := by
  induction n using Nat.strong_induction_on generalizing acc with
  | _ n ih =>
    by_cases h : n < 10
    · rw [decDigits, dif_pos h]
      simp only [List.foldl_cons, List.foldl_nil, List.length_singleton,
        pow_one, digitChar_val h]
    · rw [decDigits, dif_neg h, List.foldl_append, List.length_append]
      rw [ih (n / 10) (Nat.div_lt_self (by omega) (by omega)) acc]
      simp only [List.foldl_cons, List.foldl_nil, List.length_singleton]
      rw [digitChar_val (Nat.mod_lt n (by omega))]
      have h3 : n / 10 * 10 + n % 10 = n := by omega
      calc (acc * 10 ^ (decDigits (n / 10)).length + n / 10) * 10 + n % 10
          = acc * 10 ^ ((decDigits (n / 10)).length + 1)
              + (n / 10 * 10 + n % 10) := by rw [pow_succ]; ring
        _ = acc * 10 ^ ((decDigits (n / 10)).length + 1) + n := by rw [h3]

theorem data_asString (l : List Char) : (List.asString l).data = l := rfl

theorem toNat?_repr (n : Nat) : (Nat.repr n).toNat? = some n := by
  have hd : Nat.toDigits 10 n = decDigits n :=
    toDigitsCore_eq_decDigits (n + 1) n (Nat.lt_succ_self n)
  show ((Nat.toDigits 10 n).asString).toNat? = some n
  rw [hd, String.toNat?]
  have hnat : (List.asString (decDigits n)).isNat = true := by
    rw [String.isNat]
    have hne : (List.asString (decDigits n)).isEmpty = false := by
      rw [Bool.eq_false_iff]
      intro hemp
      have h1 := (String.isEmpty_iff _).1 hemp
      have h2 : decDigits n = [] := by
        have h3 := congrArg String.data h1
        rwa [data_asString] at h3
      exact decDigits_ne_nil n h2
    rw [hne]
    simp only [Bool.not_false, Bool.true_and]
    rw [String.all_eq, data_asString, List.all_eq_true]
    exact mem_decDigits_isDigit n
  rw [if_pos hnat, String.foldl_eq, data_asString, decDigits_foldl]
  simp

theorem repr_ne_empty (n : Nat) : Nat.repr n ≠ "" := by
  intro h
  have := congrArg String.toNat? h
  rw [toNat?_repr] at this
  simp [String.toNat?, String.isNat, String.isEmpty] at this

theorem cursorOf_repr (n : Nat) : cursorOf (Nat.repr n) = n := by
  rw [cursorOf, toNat?_repr]; rfl

theorem parse_store (store : String) :
    (if store = "" then 0 else (store.toNat?).getD 0) = cursorOf store := by
  by_cases h : store = ""
  · rw [if_pos h, h]; rfl
  · rw [if_neg h]; rfl

theorem sync_get_failed (env : SyncEnv) (store : String) (registry : List message)
    (hget : env.getOk = false) :
    sync env store registry =
      { store := store, registry := registry, persistAttempted := false,
        err := some "GetPersistentValue failed" } := by
  unfold sync
  rw [hget]
  simp

theorem sync_scan_error (env : SyncEnv) (store : String) (registry : List message)
    (e : String) (hget : env.getOk = true)
    (hscan : env.scan (cursorOf store) = .error e) :
    sync env store registry =
      { store := if env.setOk then Nat.repr (cursorOf store) else store,
        registry := registry, persistAttempted := true, err := some e } := by
  unfold sync
  rw [hget, parse_store]
  simp [hscan]

theorem sync_scan_ok (env : SyncEnv) (store : String) (registry : List message)
    (bugs : List Bug) (hget : env.getOk = true)
    (hscan : env.scan (cursorOf store) = .ok bugs) :
    sync env store registry =
      if env.setOk then
        { store := Nat.repr (syncLoop env bugs (cursorOf store) registry).1,
          registry := (syncLoop env bugs (cursorOf store) registry).2,
          persistAttempted := true, err := none }
      else
        { store := store,
          registry := (syncLoop env bugs (cursorOf store) registry).2,
          persistAttempted := true, err := some "SetPersistentValue failed" } := by
  unfold sync
  rw [hget, parse_store]
  simp [hscan, newAggregate]

theorem foldl_max_init (l : List Bug) (a : Nat) :
    l.foldl (fun acc b => max acc b.ID) a
      = max a (l.foldl (fun acc b => max acc b.ID) 0) := by
  induction l generalizing a with
  | nil => simp
  | cons b rest ih =>
    simp only [List.foldl_cons]
    rw [ih (max a b.ID), ih (max 0 b.ID)]
    simp [Nat.max_assoc, Nat.zero_max]

theorem maxID_cons (b : Bug) (rest : List Bug) :
    maxID (b :: rest) = max b.ID (maxID rest) := by
  rw [maxID, List.foldl_cons, foldl_max_init]
  simp [maxID, Nat.zero_max]

theorem syncLoop_fst (env : SyncEnv) (bugs : List Bug) (lastID : Nat)
    (reg : List message) :
    (syncLoop env bugs lastID reg).1 = max lastID (maxID bugs) := by
  induction bugs generalizing lastID reg with
  | nil => simp [syncLoop, maxID]
  | cons b rest ih =>
    simp only [syncLoop]
    rw [ih, maxID_cons]
    split <;> omega

theorem lt_maxID (bugs : List Bug) (k : Nat) (hne : bugs ≠ [])
    (hall : ∀ b ∈ bugs, k < b.ID) : k < maxID bugs := by
  cases bugs with
  | nil => exact absurd rfl hne
  | cons b rest =>
    have hb := hall b (List.mem_cons_self b rest)
    rw [maxID_cons]
    omega

theorem sync_cursor_mono (env : SyncEnv) (store : String) (registry : List message) :
    cursorOf store ≤ cursorOf (sync env store registry).store := by
  cases hget : env.getOk with
  | false => rw [sync_get_failed env store registry hget]
  | true =>
    cases hscan : env.scan (cursorOf store) with
    | error e =>
      rw [sync_scan_error env store registry e hget hscan]
      cases hset : env.setOk <;> simp [cursorOf_repr]
    | ok bugs =>
      rw [sync_scan_ok env store registry bugs hget hscan]
      cases hset : env.setOk with
      | false => simp
      | true =>
        simp only [if_true, cursorOf_repr, syncLoop_fst]
        exact Nat.le_max_left _ _

theorem syncSeq_cursor_mono (envs : List SyncEnv) (store : String)
    (registry : List message) :
    cursorOf store ≤ cursorOf (syncSeq envs store registry).1 := by
  induction envs generalizing store registry with
  | nil => simp [syncSeq]
  | cons env rest ih =>
    rw [syncSeq]
    exact le_trans (sync_cursor_mono env store registry) (ih _ _)

theorem sync_store_is_repr (env : SyncEnv) (store : String) (registry : List message)
    (hget : env.getOk = true) (hset : env.setOk = true) :
    ∃ c, (sync env store registry).store = Nat.repr c := by
  cases hscan : env.scan (cursorOf store) with
  | error e =>
    rw [sync_scan_error env store registry e hget hscan]
    exact ⟨cursorOf store, by simp [hset]⟩
  | ok bugs =>
    rw [sync_scan_ok env store registry bugs hget hscan]
    exact ⟨(syncLoop env bugs (cursorOf store) registry).1, by simp [hset]⟩

/-- **C1, counterexample.**  The claim as stated fails in two places.  A
cycle whose initial `GetPersistentValue` read fails returns before the
deferred persist is installed, so no cursor write is attempted at the end
of that cycle; and when the cursor write itself fails, the persisted
cursor after a cycle that scanned items with maximum id 7 is still the old
value 3, not 7. -/
theorem C1_counterexample :
    (sync ⟨false, fun _ => Except.ok [], fun _ => none, true, 0⟩
        (Nat.repr 5) []).persistAttempted = false
    ∧ cursorOf ((sync ⟨true, fun _ => Except.ok [⟨7, "NEW", ""⟩],
        fun _ => some ("C", "T"), false, 0⟩ (Nat.repr 3) []).store) = 3
    ∧ maxID [⟨7, "NEW", ""⟩] = 7 := by
  refine ⟨rfl, ?_, rfl⟩
  rw [sync_scan_ok _ _ _ [⟨7, "NEW", ""⟩] rfl rfl]
  simp [cursorOf_repr]

/-- **C1, amended.**  Over every sequence of Sync Cycles the persisted
cursor value is non-decreasing; the cursor write is attempted at the end
of every cycle whose initial cursor read succeeded; and after a cycle
whose scan returned items (each with id above the cursor that was read)
with maximum id `M` and whose cursor write succeeded, the persisted cursor
equals `M` regardless of which individual chat posts failed (the
conclusion holds for every `post` outcome function in `env`). -/
theorem C1_cursor_behavior (envs : List SyncEnv) (env : SyncEnv)
    (store : String) (registry : List message) :
    cursorOf store ≤ cursorOf (syncSeq envs store registry).1
    ∧ (env.getOk = true → (sync env store registry).persistAttempted = true)
    ∧ (∀ bugs, env.getOk = true → env.setOk = true →
        env.scan (cursorOf store) = .ok bugs → bugs ≠ [] →
        (∀ b ∈ bugs, cursorOf store < b.ID) →
        cursorOf (sync env store registry).store = maxID bugs) := by
  refine ⟨syncSeq_cursor_mono envs store registry, ?_, ?_⟩
  · intro hget
    cases hscan : env.scan (cursorOf store) with
    | error e =>
      rw [sync_scan_error env store registry e hget hscan]
    | ok bugs =>
      rw [sync_scan_ok env store registry bugs hget hscan]
      cases env.setOk <;> simp
  · intro bugs hget hset hscan hne hall
    rw [sync_scan_ok env store registry bugs hget hscan]
    simp only [hset, if_true, cursorOf_repr, syncLoop_fst]
    exact Nat.max_eq_right (Nat.le_of_lt (lt_maxID bugs (cursorOf store) hne hall))

/-- **C1, witness.**  A concrete cycle: cursor read 5, scan returns the
single bug 7, the chat post for it fails, the write succeeds; the persist
is attempted and the cursor ends at 7. -/
theorem C1_cursor_behavior_witness :
    (sync ⟨true, fun _ => Except.ok [⟨7, "NEW", ""⟩], fun _ => none, true, 0⟩
        (Nat.repr 5) []).persistAttempted = true
    ∧ cursorOf ((sync ⟨true, fun _ => Except.ok [⟨7, "NEW", ""⟩],
        fun _ => none, true, 0⟩ (Nat.repr 5) []).store) = maxID [⟨7, "NEW", ""⟩] := by
  refine ⟨(C1_cursor_behavior [] _ (Nat.repr 5) []).2.1 rfl,
    (C1_cursor_behavior [] _ (Nat.repr 5) []).2.2 [⟨7, "NEW", ""⟩] rfl rfl rfl
      (by simp) ?_⟩
  intro b hb
  rw [cursorOf_repr]
  simp only [List.mem_singleton] at hb
  rw [hb]
  decide

/-- **C6.**  A cycle in which the only chat post failed: the scan returned
bug 7, `post 7` failed (so nothing was registered), yet `sync` returns no
error — the source declares its `errs` slice but never appends to it, so
the post failure is silently dropped. -/
theorem C6_post_failure_silent :
    ((⟨true, fun _ => Except.ok [⟨7, "NEW", ""⟩], fun _ => none, true, 0⟩ :
        SyncEnv).post 7 = none)
    ∧ (sync ⟨true, fun _ => Except.ok [⟨7, "NEW", ""⟩], fun _ => none, true, 0⟩
        (Nat.repr 3) []).registry = []
    ∧ (sync ⟨true, fun _ => Except.ok [⟨7, "NEW", ""⟩], fun _ => none, true, 0⟩
        (Nat.repr 3) []).err = none := by
  refine ⟨rfl, ?_, ?_⟩ <;>
    rw [sync_scan_ok _ _ _ [⟨7, "NEW", ""⟩] rfl rfl] <;> simp [syncLoop]

/-- **C7.**  Running a Sync Cycle twice where the second cycle's scan
returns no new items (and both cycles' cursor read and write succeed)
leaves the persisted store and the registry exactly as the first cycle
left them. -/
theorem C7_sync_idempotent (env1 env2 : SyncEnv) (store : String)
    (registry : List message)
    (h1g : env1.getOk = true) (h1s : env1.setOk = true)
    (h2g : env2.getOk = true) (h2s : env2.setOk = true)
    (hscan : env2.scan (cursorOf (sync env1 store registry).store) = .ok []) :
    (sync env2 (sync env1 store registry).store
        (sync env1 store registry).registry).store
      = (sync env1 store registry).store
    ∧ (sync env2 (sync env1 store registry).store
        (sync env1 store registry).registry).registry
      = (sync env1 store registry).registry := by
  obtain ⟨c, hc⟩ := sync_store_is_repr env1 store registry h1g h1s
  rw [sync_scan_ok env2 _ _ [] h2g hscan]
  refine ⟨?_, by simp [h2s, syncLoop]⟩
  simp only [h2s, if_true]
  rw [show (syncLoop env2 [] (cursorOf (sync env1 store registry).store)
      (sync env1 store registry).registry).1
    = cursorOf (sync env1 store registry).store from rfl]
  rw [hc, cursorOf_repr]

/-- **C7, witness.**  Concretely: first cycle reads cursor 5, scans bug 7
and posts it; the second cycle's scan returns nothing, and store and
registry are unchanged by the second cycle. -/
theorem C7_sync_idempotent_witness :
    (sync ⟨true, fun _ => Except.ok [], fun _ => none, true, 0⟩
        (sync ⟨true, fun _ => Except.ok [⟨7, "NEW", ""⟩],
          fun _ => some ("C", "T"), true, 0⟩ (Nat.repr 5) []).store
        (sync ⟨true, fun _ => Except.ok [⟨7, "NEW", ""⟩],
          fun _ => some ("C", "T"), true, 0⟩ (Nat.repr 5) []).registry).store
      = (sync ⟨true, fun _ => Except.ok [⟨7, "NEW", ""⟩],
          fun _ => some ("C", "T"), true, 0⟩ (Nat.repr 5) []).store
    ∧ (sync ⟨true, fun _ => Except.ok [],  fun _ => none, true, 0⟩
        (sync ⟨true, fun _ => Except.ok [⟨7, "NEW", ""⟩],
          fun _ => some ("C", "T"), true, 0⟩ (Nat.repr 5) []).store
        (sync ⟨true, fun _ => Except.ok [⟨7, "NEW", ""⟩],
          fun _ => some ("C", "T"), true, 0⟩ (Nat.repr 5) []).registry).registry
      = (sync ⟨true, fun _ => Except.ok [⟨7, "NEW", ""⟩],
          fun _ => some ("C", "T"), true, 0⟩ (Nat.repr 5) []).registry :=
  C7_sync_idempotent _ _ (Nat.repr 5) [] rfl rfl rfl rfl rfl

/-- **C9.**  Whenever the initial cursor read succeeded the deferred
cursor write is attempted, whatever the scan and post outcomes were; and
when the cycle otherwise succeeded (scan ok — post failures never make the
cycle fail) but the write fails, the persistence failure is the cycle's
returned error. -/
theorem C9_persist_attempted_and_surfaced (env : SyncEnv) (store : String)
    (registry : List message) (hget : env.getOk = true) :
    (sync env store registry).persistAttempted = true
    ∧ (∀ bugs, env.scan (cursorOf store) = .ok bugs → env.setOk = false →
        (sync env store registry).err = some "SetPersistentValue failed") := by
  constructor
  · cases hscan : env.scan (cursorOf store) with
    | error e => rw [sync_scan_error env store registry e hget hscan]
    | ok bugs =>
      rw [sync_scan_ok env store registry bugs hget hscan]
      cases env.setOk <;> simp
  · intro bugs hscan hset
    rw [sync_scan_ok env store registry bugs hget hscan]
    simp [hset]

/-- **C9, witness.**  A concrete cycle whose scan succeeds (returning
nothing) and whose cursor write fails: the write was attempted and its
failure is the returned error. -/
theorem C9_persist_attempted_and_surfaced_witness :
    (sync ⟨true, fun _ => Except.ok [], fun _ => none, false, 0⟩
        (Nat.repr 5) []).persistAttempted = true
    ∧ (sync ⟨true, fun _ => Except.ok [], fun _ => none, false, 0⟩
        (Nat.repr 5) []).err = some "SetPersistentValue failed" :=
  ⟨(C9_persist_attempted_and_surfaced _ (Nat.repr 5) [] rfl).1,
    (C9_persist_attempted_and_surfaced _ (Nat.repr 5) [] rfl).2 [] rfl rfl⟩

theorem pass_foldl_fst (env : ReconEnv) (l : List message)
    (acc1 : List message) (acc2 : List (String × String)) :
    (l.foldl
      (fun acc m =>
        match env.fetch m.ID with
        | .error _ => (acc.1 ++ [m], acc.2)
        | .ok b =>
          if b.Status = "NEW" then (acc.1 ++ [m], acc.2)
          else (acc.1, acc.2 ++ [(m.channelID, m.ts)]))
      (acc1, acc2)).1
      = acc1 ++ l.filter (keepB env) := by
  induction l generalizing acc1 acc2 with
  | nil => simp
  | cons x rest ih =>
    simp only [List.foldl_cons, List.filter_cons]
    cases hfx : env.fetch x.ID with
    | error e =>
      have hk : keepB env x = true := by simp [keepB, hfx]
      rw [hk]
      simp only [hfx, ih]
      simp
    | ok b =>
      by_cases hs : b.Status = "NEW"
      · have hk : keepB env x = true := by simp [keepB, hfx, hs]
        rw [hk]
        simp only [hfx, if_pos hs, ih]
        simp
      · have hk : keepB env x = false := by simp [keepB, hfx, hs]
        rw [hk]
        simp only [hfx, if_neg hs, ih]
        simp

theorem keepB_iff (env : ReconEnv) (m : message) :
    keepB env m = true
      ↔ (∃ e, env.fetch m.ID = .error e)
        ∨ ∃ b, env.fetch m.ID = .ok b ∧ b.Status = "NEW" := by
  cases hf : env.fetch m.ID with
  | error e => simp [keepB, hf]
  | ok b => simp [keepB, hf]

/-- **C4.**  A registry entry survives a reconciliation pass iff it was
there, is at most 30 days old, and its bug either could not be fetched or
is still `"NEW"` — equivalently, it is removed iff it is more than 30 days
old or its fetched status has left `"NEW"`; the `UpdateMessage` edit
outcome (`env.editOk`) never influences retention, so an entry whose bug
left `"NEW"` is dropped even when the chat edit fails. -/
theorem C4_registry_retention (env : ReconEnv) (msgs : List message) (m : message) :
    m ∈ (updateMessagesPass env msgs).1
      ↔ m ∈ msgs ∧ tooOld env.now m = false
        ∧ ((∃ e, env.fetch m.ID = .error e)
            ∨ ∃ b, env.fetch m.ID = .ok b ∧ b.Status = "NEW") := by
  rw [updateMessagesPass]
  rw [pass_foldl_fst env _ [] []]
  rw [List.nil_append, List.mem_filter, List.mem_filter]
  rw [keepB_iff]
  simp [and_assoc, Bool.not_eq_true', tooOld]

theorem passLoopEvents_calls (env : ReconEnv) (l : List message) :
    ∀ e ∈ passLoopEvents env l, isCallEvent e = true := by
  induction l with
  | nil => simp [passLoopEvents]
  | cons m rest ih =>
    intro e he
    rw [passLoopEvents] at he
    rcases List.mem_append.1 he with h1 | h2
    · cases hf : env.fetch m.ID with
      | error err =>
        simp only [hf, List.mem_singleton] at h1
        rw [h1]; rfl
      | ok b =>
        by_cases hs : b.Status = "NEW"
        · simp only [hf, if_pos hs, List.mem_singleton] at h1
          rw [h1]; rfl
        · simp only [hf, if_neg hs, List.mem_cons, List.mem_singleton,
            List.not_mem_nil, or_false] at h1
          rcases h1 with h1 | h1 <;> (rw [h1]; rfl)
    · exact ih e h2

theorem lockFold_calls (evs : List PassEvent) (st : Nat × Bool)
    (h : ∀ e ∈ evs, isCallEvent e = true) :
    evs.foldl lockStep st = st := by
  induction evs generalizing st with
  | nil => rfl
  | cons e rest ih =>
    have he := h e (List.mem_cons_self e rest)
    have hstep : lockStep st e = st := by
      cases e <;> first | rfl | (exfalso; simp [isCallEvent] at he)
    rw [List.foldl_cons, hstep]
    exact ih st (fun x hx => h x (List.mem_cons_of_mem e hx))

/-- **C3.**  In every reconciliation pass the hour-long sleep happens
while the registry lock is still held: `time.Sleep` runs before the
deferred `Unlock`, so the loop holds the Registry's exclusive lock while
sleeping between passes — contradicting the claim that the lock is
released before the sleep. -/
theorem C3_lock_held_during_sleep (env : ReconEnv) (msgs : List message) :
    sleepsWhileLocked (passEvents env msgs) = true := by
  rw [sleepsWhileLocked, passEvents]
  rw [List.foldl_append, List.foldl_append]
  rw [lockFold_calls _ _ (passLoopEvents_calls env _)]
  rfl

/-- **C2.**  A concrete claim click on bug 7, still `"NEW"` but meanwhile
assigned to `"alice@corp"`, with a button payload carrying
`expectedAssignee = "bob@corp"`: no `UpdateBug` call is made — as the
claim says — but the ephemeral error text names the payload's
`expectedAssignee` (`"bob@corp"`), not the actual current assignee
(`"alice@corp"` from the fetched bug). -/
theorem C2_ephemeral_names_expected_assignee :
    ((⟨Except.ok "user@corp", fun e => e, Except.ok ⟨7, "NEW", "alice@corp"⟩,
        Except.ok (), Except.ok ⟨7, "ASSIGNED", "alice@corp"⟩, ⟨0, "", ""⟩,
        fun b => "bug " ++ Nat.repr b.ID, Except.ok ()⟩ : TakeEnv).fetchBug
      = Except.ok ⟨7, "NEW", "alice@corp"⟩)
    ∧ (takeClicked ⟨Except.ok "user@corp", fun e => e,
        Except.ok ⟨7, "NEW", "alice@corp"⟩, Except.ok (),
        Except.ok ⟨7, "ASSIGNED", "alice@corp"⟩, ⟨0, "", ""⟩,
        fun b => "bug " ++ Nat.repr b.ID, Except.ok ()⟩
        ⟨7, "bob@corp"⟩ "U1" "C1" "T1").updates = []
    ∧ (takeClicked ⟨Except.ok "user@corp", fun e => e,
        Except.ok ⟨7, "NEW", "alice@corp"⟩, Except.ok (),
        Except.ok ⟨7, "ASSIGNED", "alice@corp"⟩, ⟨0, "", ""⟩,
        fun b => "bug " ++ Nat.repr b.ID, Except.ok ()⟩
        ⟨7, "bob@corp"⟩ "U1" "C1" "T1").ephemeral
      = some ("Bug https://bugzilla.redhat.com/show_bug.cgi?id=7 "
          ++ "has already been assigned to bob@corp") := by
  exact ⟨rfl, rfl, rfl⟩

/-- **C8.**  When the claim's `UpdateBug` succeeded but the re-fetch
failed, the handler posts a plain confirmation to the channel, edits
nothing, and raises no ephemeral error — a degraded success after exactly
one update call. -/
theorem C8_refetch_failure_fallback (env : TakeEnv) (value : TakeValue)
    (userID channelID messageTs : String) (email : String) (b : Bug) (e : String)
    (hp : env.profile = .ok email)
    (hf : env.fetchBug = .ok b)
    (hs : b.Status = "NEW")
    (ha : b.AssignedTo = "" ∨ b.AssignedTo = value.OldAssignee)
    (hu : env.updateResult = .ok ())
    (hr : env.refetchBug = .error e) :
    (takeClicked env value userID channelID messageTs).channelMessage
      = some (env.emailToBugzilla email ++ " took: "
          ++ env.format env.refetchReturnedBug)
    ∧ (takeClicked env value userID channelID messageTs).edit = none
    ∧ (takeClicked env value userID channelID messageTs).ephemeral = none
    ∧ (takeClicked env value userID channelID messageTs).updates
      = [(value.ID, "ASSIGNED", env.emailToBugzilla email)] := by
  rcases ha with ha | ha <;>
    refine ⟨?_, ?_, ?_, ?_⟩ <;>
      simp [takeClicked, hp, hf, hs, ha, hu, hr]

/-- **C8, witness.**  A concrete run: bug 7 is `"NEW"` and unassigned, the
update succeeds, the re-fetch fails; the fallback channel message is
posted and nothing is edited. -/
theorem C8_refetch_failure_fallback_witness :
    (takeClicked ⟨Except.ok "user@corp", fun e => e, Except.ok ⟨7, "NEW", ""⟩,
        Except.ok (), Except.error "boom", ⟨0, "", ""⟩,
        fun b => "bug " ++ Nat.repr b.ID, Except.ok ()⟩
        ⟨7, ""⟩ "U1" "C1" "T1").channelMessage = some "user@corp took: bug 0"
    ∧ (takeClicked ⟨Except.ok "user@corp", fun e => e, Except.ok ⟨7, "NEW", ""⟩,
        Except.ok (), Except.error "boom", ⟨0, "", ""⟩,
        fun b => "bug " ++ Nat.repr b.ID, Except.ok ()⟩
        ⟨7, ""⟩ "U1" "C1" "T1").edit = none
    ∧ (takeClicked ⟨Except.ok "user@corp", fun e => e, Except.ok ⟨7, "NEW", ""⟩,
        Except.ok (), Except.error "boom", ⟨0, "", ""⟩,
        fun b => "bug " ++ Nat.repr b.ID, Except.ok ()⟩
        ⟨7, ""⟩ "U1" "C1" "T1").ephemeral = none :=
  ⟨(C8_refetch_failure_fallback _ _ "U1" "C1" "T1" "user@corp" ⟨7, "NEW", ""⟩
      "boom" rfl rfl rfl (Or.inl rfl) rfl rfl).1,
    (C8_refetch_failure_fallback _ _ "U1" "C1" "T1" "user@corp" ⟨7, "NEW", ""⟩
      "boom" rfl rfl rfl (Or.inl rfl) rfl rfl).2.1,
    (C8_refetch_failure_fallback _ _ "U1" "C1" "T1" "user@corp" ⟨7, "NEW", ""⟩
      "boom" rfl rfl rfl (Or.inl rfl) rfl rfl).2.2.1⟩

/-- **C5.**  An item matches the query `getNewBugs` builds with
`lastID = 0` iff it is in the fixed scope and was created within the last
168 hours (7 days); it matches the query built with `lastID = k > 0` iff
it is in the fixed scope and `id > k`. -/
theorem C5_scanner_selection (components : List String) (now : Nat) (it : ScanItem) :
    (matchesQuery now (getNewBugsQuery components 0) it = true
      ↔ inScope components it = true ∧ now - 168 ≤ it.creationTime)
    ∧ ∀ k, 0 < k →
        (matchesQuery now (getNewBugsQuery components k) it = true
          ↔ inScope components it = true ∧ k < it.id) := by
  constructor
  · simp [matchesQuery, getNewBugsQuery, matchesAdvanced, inScope, and_assoc]
  · intro k hk
    have hk0 : ¬ (k = 0) := by omega
    simp [matchesQuery, getNewBugsQuery, matchesAdvanced, inScope, hk0,
      toNat?_repr, and_assoc]

/-- **C5, witness.**  Concretely, with `lastID = 3 > 0`: an in-scope item
with id 7 matches iff `3 < 7`. -/
theorem C5_scanner_selection_witness :
    (0 : Nat) < 3
    ∧ (matchesQuery 200 (getNewBugsQuery ["networking"] 3)
          ⟨7, "Red Hat", "OpenShift Container Platform", "NEW", "networking", 100⟩
        = true
      ↔ inScope ["networking"]
          ⟨7, "Red Hat", "OpenShift Container Platform", "NEW", "networking", 100⟩
        = true ∧ 3 < 7) :=
  ⟨by decide,
    (C5_scanner_selection ["networking"] 200
      ⟨7, "Red Hat", "OpenShift Container Platform", "NEW", "networking", 100⟩).2
      3 (by decide)⟩

/-- **C10.**  When the closed-bug list fetch succeeds with an empty list,
`Report` returns the empty string with no error, and `sync` posts no chat
message and returns no error. -/
theorem C10_empty_closed_report (env : ClosedEnv) (h : env.bugList = .ok []) :
    closedReport env = .ok ""
    ∧ (closedSync env).posted = none
    ∧ (closedSync env).err = none := by
  have hr : closedReport env = .ok "" := by
    rw [closedReport, h]
    rfl
  refine ⟨hr, ?_, ?_⟩ <;> rw [closedSync, hr] <;> rfl

/-- **C10, witness.**  A concrete environment whose closed-bug list is
empty. -/
theorem C10_empty_closed_report_witness :
    closedReport ⟨Except.ok [], true, fun n _ => Nat.repr n ++ " bugs"⟩ = .ok ""
    ∧ (closedSync ⟨Except.ok [], true, fun n _ => Nat.repr n ++ " bugs"⟩).posted = none
    ∧ (closedSync ⟨Except.ok [], true, fun n _ => Nat.repr n ++ " bugs"⟩).err = none :=
  C10_empty_closed_report _ rfl

end Shodan
